import Mathlib

/-!
Shallow embedding of the Radarr service adapter (src/server/api/radarr.ts).

Modelling conventions:
- HTTP calls are represented by their outcomes: a transport-level value of
  type `Except HttpError α` stands for the result of one axios call.  A
  thrown JS `Error` with message `m` is `Except.error m : Except String α`
  at the adapter level.
- JS numbers used as ids are modelled as `Nat`; JS truthiness of a numeric
  field (`if (movie.id)`) is `≠ 0`, and of an array element
  (`!response.data[0]`) is non-emptiness of the list.
- Optional fields (`monitored?: boolean`) are `Option Bool`; the
  nullish-coalescing `?? ""` is `Option.getD "" `.
- Write effects (PUT/POST bodies sent to the service) are returned
  explicitly as a trace list, so frame claims (no write issued) are
  statements about that trace.
-/

deriving instance DecidableEq for Except

namespace Radarr

/-- A transport-level failure of an underlying axios call (network error,
timeout, non-2xx status); the adapter only ever inspects that it failed. -/
inductive HttpError where
  | transport (msg : String)
  deriving DecidableEq

/-- The RadarrMovie DTO, from the interface of the same name in
src/server/api/radarr.ts. -/
structure RadarrMovie where
  id : Nat
  title : String
  isAvailable : Bool
  monitored : Bool
  tmdbId : Nat
  imdbId : String
  titleSlug : String
  folderName : String
  path : String
  profileId : Nat
  qualityProfileId : Nat
  added : String
  downloaded : Bool
  hasFile : Bool
  deriving DecidableEq

/-- The RadarrMovieOptions input DTO of addMovie; `monitored` and
`searchNow` are optional in the source. -/
structure RadarrMovieOptions where
  title : String
  qualityProfileId : Nat
  minimumAvailability : String
  profileId : Nat
  year : Nat
  rootFolderPath : String
  tmdbId : Nat
  monitored : Option Bool
  searchNow : Option Bool
  deriving DecidableEq

/-- The RadarrProfile DTO (quality profile). -/
structure RadarrProfile where
  id : Nat
  name : String
  deriving DecidableEq

/-- One queue entry, from the QueueItem interface. -/
structure QueueItem where
  movieId : Nat
  size : Nat
  title : String
  sizeleft : Nat
  timeleft : String
  estimatedCompletionTime : String
  status : String
  trackedDownloadStatus : String
  trackedDownloadState : String
  downloadId : String
  protocol : String
  downloadClient : String
  indexer : String
  id : Nat
  deriving DecidableEq

/-- The paginated queue envelope, from the QueueResponse interface. -/
structure QueueResponse where
  page : Nat
  pageSize : Nat
  sortKey : String
  sortDirection : String
  totalRecords : Nat
  records : List QueueItem
  deriving DecidableEq

/-- The settings fields read by buildRadarrUrl (the RadarrSettings type
itself lives in src/server/lib/settings, outside the excerpt; the fields
and their types are exactly those the function dereferences). -/
structure RadarrSettings where
  useSsl : Bool
  hostname : String
  port : Nat
  baseUrl : Option String
  deriving DecidableEq

/-- RadarrAPI.buildRadarrUrl.  The source is a JS template literal
interpolating `path` directly; when the optional `path` argument is
omitted (undefined), JS string interpolation renders the literal text
"undefined", which the embedding makes explicit in the `none` branch. -/
def buildRadarrUrl (radarrSettings : RadarrSettings) (path : Option String) : String :=
  (if radarrSettings.useSsl then "https" else "http") ++ "://" ++
    radarrSettings.hostname ++ ":" ++ toString radarrSettings.port ++
    radarrSettings.baseUrl.getD "" ++
    (match path with
     | some p => p
     | none => "undefined")

/-- RadarrAPI.getMovieByTmdbId, as a function of the outcome of its single
GET /movie/lookup call.  An empty result array makes `!response.data[0]`
truthy, so the method throws "Movie not found"; that throw, and any
transport failure, are both caught by the catch block which rethrows the
same "Movie not found" message. -/
def getMovieByTmdbId (resp : Except HttpError (List RadarrMovie)) :
    Except String RadarrMovie :=
  match resp with
  | .error _ => .error "Movie not found"
  | .ok [] => .error "Movie not found"
  | .ok (m :: _) => .ok m

/-- RadarrAPI.getQueue, as a function of the outcome of its GET /queue
call: on success it surfaces only the records field of the envelope. -/
def getQueue (resp : Except HttpError QueueResponse) :
    Except String (List QueueItem) :=
  match resp with
  | .ok r => .ok r.records
  | .error e =>
    match e with
    | .transport m => .error ("[Radarr] Failed to retrieve queue: " ++ m)

/-- The request attributes addMovie sends on a write: for POST this is the
whole body (plus the nested addOptions object, flattened here into
`searchForMovie`); for PUT these are the fields that override the spread
of the looked-up movie.  Built from the options exactly as in the source
(`titleSlug` is the tmdb id rendered as a string). -/
structure RadarrMoviePayload where
  title : String
  qualityProfileId : Nat
  profileId : Nat
  titleSlug : String
  minimumAvailability : String
  tmdbId : Nat
  year : Nat
  rootFolderPath : String
  monitored : Option Bool
  searchForMovie : Option Bool
  deriving DecidableEq

/-- The body addMovie sends, built from the options (lines 199-212 for the
POST body; the same fields override the spread movie in the PUT body). -/
def moviePayload (options : RadarrMovieOptions) : RadarrMoviePayload :=
  { title := options.title
    qualityProfileId := options.qualityProfileId
    profileId := options.profileId
    titleSlug := toString options.tmdbId
    minimumAvailability := options.minimumAvailability
    tmdbId := options.tmdbId
    year := options.year
    rootFolderPath := options.rootFolderPath
    monitored := options.monitored
    searchForMovie := options.searchNow }

/-- The PUT /movie body: the spread of the looked-up movie record together
with the overriding fields from the options (lines 156-170). -/
structure PutMovieBody where
  base : RadarrMovie
  overrides : RadarrMoviePayload
  deriving DecidableEq

/-- Builds the PUT body from the resolved movie and the caller options. -/
def putMovieBody (movie : RadarrMovie) (options : RadarrMovieOptions) :
    PutMovieBody :=
  { base := movie, overrides := moviePayload options }

/-- One write request issued against the service by addMovie. -/
inductive WriteRequest where
  | put (body : PutMovieBody)
  | post (body : RadarrMoviePayload)
  deriving DecidableEq

/-- The outcomes of the HTTP calls addMovie may perform: the lookup
(GET /movie/lookup via getMovieByTmdbId), and the responses the service
would give to a PUT /movie or POST /movie, were one issued. -/
structure AddMovieEnv where
  lookup : Except HttpError (List RadarrMovie)
  putResponse : Except HttpError RadarrMovie
  postResponse : Except HttpError RadarrMovie
  deriving DecidableEq

/-- The distinct failure points inside the try block of addMovie; the
catch block collapses every one of them into the single caller-visible
error. -/
inductive AddMovieError where
  | movieNotFound
  | putTransport
  | updateRejected
  | postTransport
  | addRejected
  deriving DecidableEq

/-- The try block of RadarrAPI.addMovie (lines 141-227): resolve the movie
by tmdb id, return early when downloaded, update when it exists
unmonitored (success iff the response record is monitored), return early
when it exists monitored, otherwise create (success iff the response
record carries a non-zero id).  Returns the result together with the
trace of write requests issued. -/
def addMovieTryBlock (options : RadarrMovieOptions) (env : AddMovieEnv) :
    Except AddMovieError RadarrMovie × List WriteRequest :=
  match getMovieByTmdbId env.lookup with
  | .error _ => (.error .movieNotFound, [])
  | .ok movie =>
    if movie.downloaded then
      (.ok movie, [])
    else if movie.id ≠ 0 ∧ movie.monitored = false then
      match env.putResponse with
      | .error _ => (.error .putTransport, [.put (putMovieBody movie options)])
      | .ok updated =>
        if updated.monitored then
          (.ok updated, [.put (putMovieBody movie options)])
        else
          (.error .updateRejected, [.put (putMovieBody movie options)])
    else if movie.id ≠ 0 then
      (.ok movie, [])
    else
      match env.postResponse with
      | .error _ => (.error .postTransport, [.post (moviePayload options)])
      | .ok created =>
        if created.id ≠ 0 then
          (.ok created, [.post (moviePayload options)])
        else
          (.error .addRejected, [.post (moviePayload options)])

/-- RadarrAPI.addMovie: the try block wrapped by the catch block of lines
228-239, which logs and rethrows every failure as the one generic
"Failed to add movie to Radarr" error. -/
def addMovie (options : RadarrMovieOptions) (env : AddMovieEnv) :
    Except String RadarrMovie × List WriteRequest :=
  match addMovieTryBlock options env with
  | (.ok movie, writes) => (.ok movie, writes)
  | (.error _, writes) => (.error "Failed to add movie to Radarr", writes)

/-- One cache entry of the shared store: a value snapshot and the absolute
time at which it expires. -/
structure CacheEntry (α : Type) where
  value : α
  expiry : Nat
  deriving DecidableEq

/-- The outcome of one rolling fetch: the returned value or error, the
cache entry for the key afterwards, and whether a network request was
issued. -/
structure RollingOutcome (α : Type) where
  result : Except HttpError α
  cache : Option (CacheEntry α)
  networkRequest : Bool
  deriving DecidableEq

/-- Modelled from the spec: the fetch-and-store arm of the generic client
rolling GET (ExternalAPI.getRolling, src/server/api/externalapi.ts, is not
among the supplied sources).  Per spec section 4.1, the request is
performed; a successful result is stored under the key with the given TTL
and returned; a failed fetch writes nothing (no negative caching). -/
def rollingFetch {α : Type} (now ttl : Nat) (cache : Option (CacheEntry α))
    (fetch : Except HttpError α) : RollingOutcome α :=
  match fetch with
  | .ok v => ⟨.ok v, some ⟨v, now + ttl⟩, true⟩
  | .error e => ⟨.error e, cache, true⟩

/-- Modelled from the spec: ExternalAPI.getRolling for one cache key.  Per
spec section 4.1: if a live entry exists it is returned without a network
call; otherwise the request is performed and a successful result is
stored with the given TTL.  An entry is live while the current time is
before its expiry. -/
def getRolling {α : Type} (now ttl : Nat) (cache : Option (CacheEntry α))
    (fetch : Except HttpError α) : RollingOutcome α :=
  match cache with
  | some entry =>
    if now < entry.expiry then ⟨.ok entry.value, some entry, false⟩
    else rollingFetch now ttl cache fetch
  | none => rollingFetch now ttl cache fetch

/-- RadarrAPI.getProfiles: delegates to the rolling fetch on the
/qualityProfile path with a 3600 second TTL and wraps any failure in the
uniform profile-retrieval error (lines 242-254; the rolling fetch itself
is modelled from the spec, see getRolling). -/
def getProfiles (now : Nat) (cache : Option (CacheEntry (List RadarrProfile)))
    (fetch : Except HttpError (List RadarrProfile)) :
    Except String (List RadarrProfile) ×
      Option (CacheEntry (List RadarrProfile)) × Bool :=
  match getRolling now 3600 cache fetch with
  | ⟨.ok v, c, net⟩ => (.ok v, c, net)
  | ⟨.error e, c, net⟩ =>
    match e with
    | .transport m => (.error ("[Radarr] Failed to retrieve profiles: " ++ m), c, net)

/-! Concrete sample data used by closed scenario theorems and witnesses. -/

/-- A lookup record for tmdb id 603 that is not yet in the service:
internal id 0, not downloaded, not monitored. -/
def baseMovie : RadarrMovie :=
  { id := 0, title := "The Matrix", isAvailable := false, monitored := false,
    tmdbId := 603, imdbId := "tt0133093", titleSlug := "603",
    folderName := "", path := "", profileId := 1, qualityProfileId := 1,
    added := "", downloaded := false, hasFile := false }

/-- A concrete addMovie options record for tmdb id 603. -/
def baseOptions : RadarrMovieOptions :=
  { title := "The Matrix", qualityProfileId := 1,
    minimumAvailability := "released", profileId := 1, year := 1999,
    rootFolderPath := "/movies", tmdbId := 603, monitored := some true,
    searchNow := some true }

/-- The record the service returns after a successful create: id 42. -/
def createdMovie : RadarrMovie := { baseMovie with id := 42 }

/-- A resolved item that exists (id 7), is not monitored, but is already
downloaded. -/
def c1CexMovie : RadarrMovie :=
  { baseMovie with id := 7, downloaded := true, monitored := false }

/-- Environment whose lookup resolves c1CexMovie and whose PUT response
record is unmonitored. -/
def c1CexEnv : AddMovieEnv :=
  { lookup := .ok [c1CexMovie], putResponse := .ok baseMovie,
    postResponse := .ok baseMovie }

/-- A resolved item that is absent from the service (id 0) but marked
downloaded. -/
def c2CexMovie : RadarrMovie := { baseMovie with id := 0, downloaded := true }

/-- Environment whose lookup resolves c2CexMovie and whose POST response
carries the assigned id 42. -/
def c2CexEnv : AddMovieEnv :=
  { lookup := .ok [c2CexMovie], putResponse := .ok baseMovie,
    postResponse := .ok createdMovie }

/-- Environment whose lookup call fails at the transport level, so
getMovieByTmdbId fails with the uniform not-found error. -/
def c5CexEnv : AddMovieEnv :=
  { lookup := .error (.transport "ECONNREFUSED"), putResponse := .ok baseMovie,
    postResponse := .ok baseMovie }

/-- Environment for the end-to-end create scenario of claim C7: lookup
resolves baseMovie (id 0, tmdb 603) and the create response is id 42. -/
def c7Env : AddMovieEnv :=
  { lookup := .ok [baseMovie], putResponse := .ok baseMovie,
    postResponse := .ok createdMovie }

/-! Claim theorems. -/

/-- Claim C1, counterexample to the claim as stated: an addItem call whose
resolved item exists in the service (id 7, non-zero) and is not monitored,
yet the adapter issues no PUT (empty write trace) and succeeds returning
the resolved item, although the update response record is unmonitored —
because the item is marked downloaded, the early return of lines 144-152
fires before the update branch. -/
theorem addMovie_update_claim_cex :
    getMovieByTmdbId c1CexEnv.lookup = Except.ok c1CexMovie ∧
    c1CexMovie.id ≠ 0 ∧ c1CexMovie.monitored = false ∧
    (∀ m, c1CexEnv.putResponse = Except.ok m → m.monitored = false) ∧
    addMovie baseOptions c1CexEnv = (Except.ok c1CexMovie, []) := by
  refine ⟨rfl, by decide, rfl, ?_, rfl⟩
  intro m hm
  cases hm
  rfl

/-- Claim C1, amended: for every addItem call whose resolved item exists
(non-zero id), is not monitored AND is not marked downloaded, the adapter
issues exactly one PUT, and when that update call returns a record, the
call succeeds with the updated record iff its monitored flag is true,
failing with an error otherwise even though the response itself was
successful. -/
theorem addMovie_update_path (options : RadarrMovieOptions)
    (movie updated : RadarrMovie) (rest : List RadarrMovie)
    (po : Except HttpError RadarrMovie)
    (h1 : movie.downloaded = false) (h2 : movie.id ≠ 0)
    (h3 : movie.monitored = false) :
    addMovie options
      { lookup := .ok (movie :: rest),
        putResponse := .ok updated, postResponse := po } =
      ((if updated.monitored then Except.ok updated
        else Except.error "Failed to add movie to Radarr"),
       [WriteRequest.put (putMovieBody movie options)]) := by
  by_cases hm : updated.monitored <;>
    simp [addMovie, addMovieTryBlock, getMovieByTmdbId, h1, h2, h3, hm]

/-- Claim C1, witness for addMovie_update_path at a concrete input. -/
theorem addMovie_update_path_witness :
    ({ baseMovie with id := 7 } : RadarrMovie).downloaded = false ∧
    ({ baseMovie with id := 7 } : RadarrMovie).id ≠ 0 ∧
    ({ baseMovie with id := 7 } : RadarrMovie).monitored = false ∧
    addMovie baseOptions
      { lookup := .ok [{ baseMovie with id := 7 }],
        putResponse := .ok { baseMovie with id := 7, monitored := true },
        postResponse := .ok baseMovie } =
      ((if ({ baseMovie with id := 7, monitored := true } : RadarrMovie).monitored
        then Except.ok { baseMovie with id := 7, monitored := true }
        else Except.error "Failed to add movie to Radarr"),
       [WriteRequest.put (putMovieBody { baseMovie with id := 7 } baseOptions)]) :=
  ⟨rfl, by decide, rfl,
    addMovie_update_path baseOptions { baseMovie with id := 7 }
      { baseMovie with id := 7, monitored := true } [] (.ok baseMovie)
      rfl (by decide) rfl⟩

/-- Claim C2, counterexample to the claim as stated: an addItem call whose
lookup shows the item absent from the service (resolved id 0), yet the
adapter issues no POST (empty write trace) and succeeds returning the
resolved record without any assigned id — because the resolved record is
marked downloaded, the early return of lines 144-152 fires before the
create branch. -/
theorem addMovie_create_claim_cex :
    getMovieByTmdbId c2CexEnv.lookup = Except.ok c2CexMovie ∧
    c2CexMovie.id = 0 ∧
    addMovie baseOptions c2CexEnv = (Except.ok c2CexMovie, []) :=
  ⟨rfl, rfl, rfl⟩

/-- Claim C2, amended: for every addItem call whose resolved item is
absent from the service (id 0) AND not marked downloaded, the adapter
issues exactly one POST with the full requested attribute set, and when
the create call returns a record, the call succeeds with the created
record iff it carries a non-zero assigned id, failing with an error
otherwise even without an HTTP-level error. -/
theorem addMovie_create_path (options : RadarrMovieOptions)
    (movie created : RadarrMovie) (rest : List RadarrMovie)
    (pr : Except HttpError RadarrMovie)
    (h1 : movie.downloaded = false) (h2 : movie.id = 0) :
    addMovie options
      { lookup := .ok (movie :: rest),
        putResponse := pr, postResponse := .ok created } =
      ((if created.id ≠ 0 then Except.ok created
        else Except.error "Failed to add movie to Radarr"),
       [WriteRequest.post (moviePayload options)]) := by
  by_cases hc : created.id = 0 <;>
    simp [addMovie, addMovieTryBlock, getMovieByTmdbId, h1, h2, hc]

/-- Claim C2, witness for addMovie_create_path at a concrete input. -/
theorem addMovie_create_path_witness :
    baseMovie.downloaded = false ∧ baseMovie.id = 0 ∧
    addMovie baseOptions
      { lookup := .ok [baseMovie],
        putResponse := .ok baseMovie, postResponse := .ok createdMovie } =
      ((if createdMovie.id ≠ 0 then Except.ok createdMovie
        else Except.error "Failed to add movie to Radarr"),
       [WriteRequest.post (moviePayload baseOptions)]) :=
  ⟨rfl, rfl,
    addMovie_create_path baseOptions baseMovie createdMovie [] (.ok baseMovie)
      rfl rfl⟩

/-- Claim C3: for every addItem call whose resolved item has
downloaded = true, addMovie returns that item unchanged and issues no
write request at all (empty write trace), whatever the other fields and
whatever the service would answer to a write. -/
theorem addMovie_downloaded_noop (options : RadarrMovieOptions)
    (movie : RadarrMovie) (rest : List RadarrMovie)
    (pr po : Except HttpError RadarrMovie)
    (h : movie.downloaded = true) :
    addMovie options
      { lookup := .ok (movie :: rest),
        putResponse := pr, postResponse := po } = (.ok movie, []) := by
  simp [addMovie, addMovieTryBlock, getMovieByTmdbId, h]

/-- Claim C3, witness for addMovie_downloaded_noop at a concrete input. -/
theorem addMovie_downloaded_noop_witness :
    c1CexMovie.downloaded = true ∧
    addMovie baseOptions
      { lookup := .ok [c1CexMovie],
        putResponse := .ok baseMovie, postResponse := .ok baseMovie } =
      (.ok c1CexMovie, []) :=
  ⟨rfl, addMovie_downloaded_noop baseOptions c1CexMovie [] (.ok baseMovie)
    (.ok baseMovie) rfl⟩

/-- Claim C4: for every addItem call whose resolved item exists (non-zero
id), is not downloaded and is already monitored, addMovie returns that
item unchanged and issues no write request (empty write trace). -/
theorem addMovie_monitored_noop (options : RadarrMovieOptions)
    (movie : RadarrMovie) (rest : List RadarrMovie)
    (pr po : Except HttpError RadarrMovie)
    (h1 : movie.downloaded = false) (h2 : movie.id ≠ 0)
    (h3 : movie.monitored = true) :
    addMovie options
      { lookup := .ok (movie :: rest),
        putResponse := pr, postResponse := po } = (.ok movie, []) := by
  simp [addMovie, addMovieTryBlock, getMovieByTmdbId, h1, h2, h3]

/-- Claim C4, witness for addMovie_monitored_noop at a concrete input. -/
theorem addMovie_monitored_noop_witness :
    ({ baseMovie with id := 7, monitored := true } : RadarrMovie).downloaded = false ∧
    ({ baseMovie with id := 7, monitored := true } : RadarrMovie).id ≠ 0 ∧
    ({ baseMovie with id := 7, monitored := true } : RadarrMovie).monitored = true ∧
    addMovie baseOptions
      { lookup := .ok [{ baseMovie with id := 7, monitored := true }],
        putResponse := .ok baseMovie, postResponse := .ok baseMovie } =
      (.ok { baseMovie with id := 7, monitored := true }, []) :=
  ⟨rfl, by decide, rfl,
    addMovie_monitored_noop baseOptions { baseMovie with id := 7, monitored := true }
      [] (.ok baseMovie) (.ok baseMovie) rfl (by decide) rfl⟩

/-- Claim C5, counterexample to the claim as stated: when the lookup
inside addMovie fails with its uniform "Movie not found" error, the caller
does NOT observe that error unchanged: the catch-all of lines 228-239
replaces it, and the caller observes the generic
"Failed to add movie to Radarr" error, a different message. -/
theorem addMovie_lookup_error_cex :
    getMovieByTmdbId c5CexEnv.lookup = Except.error "Movie not found" ∧
    addMovie baseOptions c5CexEnv =
      (Except.error "Failed to add movie to Radarr", []) ∧
    ("Failed to add movie to Radarr" : String) ≠ "Movie not found" :=
  ⟨rfl, rfl, by decide⟩

/-- Claim C5, amended: when the lookup step inside addMovie fails (with
its "Movie not found" error), addMovie fails without issuing any write,
but the error the caller observes is the generic
"Failed to add movie to Radarr" raised by the surrounding catch block,
not the not-found error of the lookup. -/
theorem addMovie_lookup_error (options : RadarrMovieOptions)
    (env : AddMovieEnv)
    (h : ∃ s, getMovieByTmdbId env.lookup = Except.error s) :
    addMovie options env =
      (Except.error "Failed to add movie to Radarr", []) := by
  obtain ⟨s, hs⟩ := h
  simp [addMovie, addMovieTryBlock, hs]

/-- Claim C5, witness for addMovie_lookup_error at a concrete input. -/
theorem addMovie_lookup_error_witness :
    (∃ s, getMovieByTmdbId c5CexEnv.lookup = Except.error s) ∧
    addMovie baseOptions c5CexEnv =
      (Except.error "Failed to add movie to Radarr", []) :=
  ⟨⟨"Movie not found", rfl⟩,
    addMovie_lookup_error baseOptions c5CexEnv ⟨"Movie not found", rfl⟩⟩

/-- Claim C6: getMovieByTmdbId returns the first element of a non-empty
lookup response, and fails with the same "Movie not found" error both on
an empty response and on a transport failure, so the two causes are
indistinguishable to the caller. -/
theorem getMovieByTmdbId_first_or_notfound (m : RadarrMovie)
    (ms : List RadarrMovie) (e : HttpError) :
    getMovieByTmdbId (Except.ok (m :: ms)) = Except.ok m ∧
    getMovieByTmdbId (Except.ok []) = Except.error "Movie not found" ∧
    getMovieByTmdbId (Except.error e) = Except.error "Movie not found" :=
  ⟨rfl, rfl, rfl⟩

/-- Claim C7: end-to-end scenario — the lookup resolves
baseMovie = { id 0, tmdbId 603, downloaded false, monitored false }, the
create response carries id 42, and addMovie takes the create path (its
write trace is exactly one POST and no PUT) and returns the record with
id 42. -/
theorem addMovie_tmdb603_creates :
    baseMovie.id = 0 ∧ baseMovie.tmdbId = 603 ∧
    baseMovie.downloaded = false ∧ baseMovie.monitored = false ∧
    addMovie baseOptions c7Env =
      (Except.ok createdMovie, [WriteRequest.post (moviePayload baseOptions)]) ∧
    createdMovie.id = 42 :=
  ⟨rfl, rfl, rfl, rfl, rfl, rfl⟩

/-- Claim C8: for every well-formed queue envelope, getQueue returns
exactly its records field, discarding every pagination field. -/
theorem getQueue_returns_records (envelope : QueueResponse) :
    getQueue (Except.ok envelope) = Except.ok envelope.records :=
  rfl

/-- Claim C9: with the rolling cache populated by a successful fetch at
time t0, a second getProfiles call at any time t1 inside the 3600 second
TTL window issues no network request and returns the cached value — even
if the network would fail — while a call at any time t2 at or past expiry
issues a network request and refreshes the cache entry. -/
theorem getProfiles_ttl_cache (t0 t1 t2 : Nat) (v w : List RadarrProfile)
    (f1 : Except HttpError (List RadarrProfile))
    (h1 : t1 < t0 + 3600) (h2 : t0 + 3600 ≤ t2) :
    getProfiles t0 none (Except.ok v) =
      (Except.ok v, some ⟨v, t0 + 3600⟩, true) ∧
    getProfiles t1 (some ⟨v, t0 + 3600⟩) f1 =
      (Except.ok v, some ⟨v, t0 + 3600⟩, false) ∧
    getProfiles t2 (some ⟨v, t0 + 3600⟩) (Except.ok w) =
      (Except.ok w, some ⟨w, t2 + 3600⟩, true) := by
  have h2n : ¬ t2 < t0 + 3600 := not_lt.mpr h2
  refine ⟨?_, ?_, ?_⟩
  · simp [getProfiles, getRolling, rollingFetch]
  · simp [getProfiles, getRolling, rollingFetch, h1]
  · simp [getProfiles, getRolling, rollingFetch, h2n]

/-- Claim C9, witness for getProfiles_ttl_cache at concrete times 0, 10
and 3600 with a failing network during the cache-hit call. -/
theorem getProfiles_ttl_cache_witness :
    10 < 0 + 3600 ∧ 0 + 3600 ≤ 3600 ∧
    (getProfiles 0 none (Except.ok ([] : List RadarrProfile)) =
      (Except.ok [], some ⟨[], 0 + 3600⟩, true) ∧
    getProfiles 10 (some ⟨[], 0 + 3600⟩)
        (Except.error (HttpError.transport "down")) =
      (Except.ok [], some ⟨[], 0 + 3600⟩, false) ∧
    getProfiles 3600 (some ⟨[], 0 + 3600⟩)
        (Except.ok [{ id := 1, name := "HD" }]) =
      (Except.ok [{ id := 1, name := "HD" }],
        some ⟨[{ id := 1, name := "HD" }], 3600 + 3600⟩, true)) :=
  ⟨by decide, by decide,
    getProfiles_ttl_cache 0 10 3600 [] [{ id := 1, name := "HD" }]
      (Except.error (HttpError.transport "down")) (by decide) (by decide)⟩

/-- Claim C10: for every settings value, buildRadarrUrl with the path
argument omitted returns the base URL with the literal text "undefined"
appended (JS interpolation of an undefined value), while a provided path
is appended verbatim after the same scheme://hostname:port and optional
base-url prefix. -/
theorem buildRadarrUrl_undefined_or_path (s : RadarrSettings) (p : String) :
    ∃ pre,
      pre = (if s.useSsl then "https" else "http") ++ "://" ++ s.hostname ++
        ":" ++ toString s.port ++ s.baseUrl.getD "" ∧
      buildRadarrUrl s none = pre ++ "undefined" ∧
      buildRadarrUrl s (some p) = pre ++ p :=
  ⟨_, rfl, rfl, rfl⟩

end Radarr
